import Mathlib

/-!
Verification of the tienda-clase order/auth core against its specification.

The backend order model (`backend/models/pedidos.model.js`), the auth
middleware (`backend/middlewares/auth.middleware.js`), the auth controller
(`controllers/auth.controller.js`) and the browser cart
(frontend didactic client) are embedded shallowly below.  MySQL tables are
lists of rows inside a `DB` record; each `pool.query` INSERT is a state
update.  The `pedidos_productos` table is modelled after the schema declared
at the head of `pedidos.model.js` (its own AUTO_INCREMENT `id` primary key
plus a foreign key on `producto_id`); an INSERT whose `producto_id` does not
exist fails, which is the concrete mid-sequence failure used to exercise the
missing transactional boundary.
-/

set_option maxRecDepth 4000

namespace Tienda

/-- Row of the `productos` table (presentation-only columns omitted). -/
structure Producto where
  id : Nat
  nombre : String
  precio : Int
  stock : Int
  deriving Repr, DecidableEq

/-- Row of the `pedidos` table (order header). -/
structure PedidoRow where
  id : Nat
  cliente_id : Nat
  estado : String
  fecha : Nat
  deriving Repr, DecidableEq

/-- Row of the `pedidos_productos` table (order line). -/
structure LineaRow where
  id : Nat
  pedido_id : Nat
  producto_id : Nat
  cantidad : Int
  deriving Repr, DecidableEq

/-- The relational store: the tables touched by the order workflow, the
AUTO_INCREMENT counters, and the current clock used for TIMESTAMP defaults. -/
structure DB where
  productos : List Producto
  pedidos : List PedidoRow
  lineas : List LineaRow
  nextPedidoId : Nat
  nextLineaId : Nat
  now : Nat
  deriving Repr, DecidableEq

/-- One requested order line as sent by the client: `{producto_id, cantidad}`. -/
structure LineaReq where
  producto_id : Nat
  cantidad : Int
  deriving Repr, DecidableEq

/-- Return value of `crearPedido`. -/
structure PedidoCreado where
  id : Nat
  cliente_id : Nat
  estado : String
  deriving Repr, DecidableEq

/-- Return value of `agregarProductoAPedido`. -/
structure LineaCreada where
  id : Nat
  pedido_id : Nat
  producto_id : Nat
  cantidad : Int
  deriving Repr, DecidableEq

/-- Aggregate returned by `crear`. -/
structure PedidoCompleto where
  id : Nat
  cliente_id : Nat
  estado : String
  productos : List LineaCreada
  total_productos : Int
  deriving Repr, DecidableEq

/-- `crearPedido(clienteId)`: INSERT INTO pedidos (cliente_id) VALUES (?).
MySQL fills `id` (AUTO_INCREMENT), `estado` (default "pendiente") and
`fecha` (CURRENT_TIMESTAMP); the function returns id, cliente_id, estado. -/
def crearPedido (clienteId : Nat) (db : DB) : PedidoCreado × DB :=
  let fila : PedidoRow :=
    { id := db.nextPedidoId, cliente_id := clienteId,
      estado := "pendiente", fecha := db.now }
  ({ id := fila.id, cliente_id := clienteId, estado := "pendiente" },
   { db with pedidos := db.pedidos ++ [fila], nextPedidoId := db.nextPedidoId + 1 })

/-- `agregarProductoAPedido({pedidoId, productoId, cantidad})`:
INSERT INTO pedidos_productos (pedido_id, producto_id, cantidad).
The INSERT fails when `producto_id` violates its foreign key, mirroring a
`pool.query` rejection; each INSERT autocommits (no surrounding transaction
exists anywhere in the model layer). -/
def agregarProductoAPedido (pedidoId productoId : Nat) (cantidad : Int)
    (db : DB) : Except String LineaCreada × DB :=
  if db.productos.any (fun p => p.id == productoId) then
    let fila : LineaRow :=
      { id := db.nextLineaId, pedido_id := pedidoId,
        producto_id := productoId, cantidad := cantidad }
    (Except.ok { id := fila.id, pedido_id := pedidoId,
                 producto_id := productoId, cantidad := cantidad },
     { db with lineas := db.lineas ++ [fila], nextLineaId := db.nextLineaId + 1 })
  else
    (Except.error "foreign key constraint fails on producto_id", db)

/-- The `for (const producto of productos)` loop inside `crear`: lines are
inserted one by one; the first failing INSERT aborts the loop, and the rows
already inserted stay committed. -/
def agregarLineasAPedido (pedidoId : Nat) :
    List LineaReq → DB → Except String (List LineaCreada) × DB
  | [], db => (Except.ok [], db)
  | r :: rs, db =>
    match agregarProductoAPedido pedidoId r.producto_id r.cantidad db with
    | (Except.error e, db1) => (Except.error e, db1)
    | (Except.ok linea, db1) =>
      match agregarLineasAPedido pedidoId rs db1 with
      | (Except.error e, db2) => (Except.error e, db2)
      | (Except.ok ls, db2) => (Except.ok (linea :: ls), db2)

/-- `crear({cliente_id, productos})`: creates the order header, then appends
every line, then returns the aggregate with `total_productos` computed by
`productos.reduce((total, p) => total + p.cantidad, 0)`.  The try/catch in
the source only logs and rethrows: an error after the header INSERT leaves
the header (and any earlier lines) in the store. -/
def crear (cliente_id : Nat) (productos : List LineaReq) (db : DB) :
    Except String PedidoCompleto × DB :=
  let r := crearPedido cliente_id db
  match agregarLineasAPedido r.1.id productos r.2 with
  | (Except.error e, db2) => (Except.error e, db2)
  | (Except.ok lineas, db2) =>
    (Except.ok { id := r.1.id, cliente_id := r.1.cliente_id,
                 estado := r.1.estado, productos := lineas,
                 total_productos :=
                   productos.foldl (fun total p => total + p.cantidad) 0 },
     db2)

/-- `obtenerPedidosDeCliente(clienteId)`:
SELECT id, cliente_id, estado, fecha FROM pedidos WHERE cliente_id = ?
ORDER BY fecha DESC. -/
def obtenerPedidosDeCliente (clienteId : Nat) (db : DB) : List PedidoRow :=
  (db.pedidos.filter (fun p => p.cliente_id == clienteId)).mergeSort
    (fun a b => b.fecha ≤ a.fecha)

/-- Alias kept by the source for the controller. -/
def obtenerPorCliente : Nat → DB → List PedidoRow := obtenerPedidosDeCliente

/-- Failure kinds of the order workflow, per the error taxonomy of the spec. -/
inductive OrderError where
  | emptyCart
  | invalidQuantity
  | productNotFound
  | persistenceFailure (msg : String)
  deriving Repr, DecidableEq

/-- Modelled from the spec: `controllers/pedidos.controller.js` is imported
by `routes/pedidos.routes.js` but is absent from the repository.  Following
the spec (§4.4), the controller rejects `EmptyCart` for an empty line list,
`InvalidQuantity` for a non-positive quantity, `ProductNotFound` when any
referenced product does not exist, and otherwise delegates persistence to
`crear`, surfacing a store error as `PersistenceFailure`.  The spec states
that the source performs no server-side stock re-validation at order time
(stock is checked only client-side at cart-add time), so no
`InsufficientStock` branch exists here. -/
def placeOrder (cliente_id : Nat) (lineRequests : List LineaReq) (db : DB) :
    Except OrderError PedidoCompleto × DB :=
  if lineRequests.isEmpty then
    (Except.error OrderError.emptyCart, db)
  else if lineRequests.any (fun r => r.cantidad ≤ 0) then
    (Except.error OrderError.invalidQuantity, db)
  else if lineRequests.all (fun r => db.productos.any (fun p => p.id == r.producto_id)) then
    match crear cliente_id lineRequests db with
    | (Except.error e, db1) => (Except.error (OrderError.persistenceFailure e), db1)
    | (Except.ok res, db1) => (Except.ok res, db1)
  else
    (Except.error OrderError.productNotFound, db)

/-- A concrete store: one product (id 1, stock 5), no orders yet. -/
def db0 : DB :=
  { productos := [{ id := 1, nombre := "Camiseta", precio := 15, stock := 5 }],
    pedidos := [], lineas := [],
    nextPedidoId := 456, nextLineaId := 1, now := 100 }

/-- Error kinds thrown by `jwt.verify`, as named in the catch block of the
middleware (`TokenExpiredError`, `JsonWebTokenError`, `NotBeforeError`). -/
inductive JwtError where
  | tokenExpiredError
  | jsonWebTokenError
  | notBeforeError
  deriving Repr, DecidableEq

/-- The decoded JWT payload used by the middleware: `cliente_id` plus the
optional `email` and `nombre` claims (empty string when absent). -/
structure JwtPayload where
  cliente_id : Nat
  email : String
  nombre : String
  deriving Repr, DecidableEq

/-- The `req.user` object attached on success (`id` aliases `cliente_id`). -/
structure ReqUser where
  cliente_id : Nat
  id : Nat
  email : String
  nombre : String
  deriving Repr, DecidableEq

/-- Outcome of the middleware: either a 401 response is returned and the
chain stops, or `req.user` is set and `next()` runs the downstream handler. -/
inductive AuthOutcome where
  | unauthorized (status : Nat) (mensaje : String)
  | next (user : ReqUser)
  deriving Repr, DecidableEq

/-- The catch-block mapping from the `jwt.verify` error name to the
user-visible `mensaje` of the 401 response. -/
def mensajeDeError : JwtError → String
  | JwtError.tokenExpiredError => "Token expirado"
  | JwtError.jsonWebTokenError => "Token malformado"
  | JwtError.notBeforeError => "Token no es válido todavía"

/-- Splitting on a single space, the semantics of the JavaScript call
`authHeader.split(" ")` used by the middleware (consecutive separators
produce empty fields, and the result is never empty). -/
def dividirAux : List Char → List Char → List String
  | [], acc => [String.mk acc.reverse]
  | c :: resto, acc =>
    if c == ' ' then String.mk acc.reverse :: dividirAux resto []
    else dividirAux resto (c :: acc)

/-- String form of `dividirAux`: `dividir s` models `s.split(" ")`. -/
def dividir (s : String) : List String := dividirAux s.data []

/-- `verificarToken(req, res, next)`: the auth gate.  The header is an
`Option String` (`none` when the request carries no Authorization header);
the JavaScript falsiness test `!authHeader` also treats the empty string as
missing.  Destructuring `const [bearer, token] = authHeader.split(" ")`
leaves `token` undefined (falsy) when there is no second field.  Token
verification is the `verify` argument, so the gate itself is as generic as
`jwt.verify` is to the middleware. -/
def verificarToken (verify : String → Except JwtError JwtPayload)
    (authHeader : Option String) : AuthOutcome :=
  match authHeader with
  | none => AuthOutcome.unauthorized 401 "Falta cabecera Authorization"
  | some h =>
    if h == "" then AuthOutcome.unauthorized 401 "Falta cabecera Authorization"
    else
      let partes := dividir h
      let bearer := partes.headD ""
      let tok := partes.getD 1 ""
      if bearer != "Bearer" || tok == "" then
        AuthOutcome.unauthorized 401 "Formato de token no válido"
      else
        match verify tok with
        | Except.ok decoded =>
          AuthOutcome.next { cliente_id := decoded.cliente_id,
                             id := decoded.cliente_id,
                             email := decoded.email, nombre := decoded.nombre }
        | Except.error e =>
          AuthOutcome.unauthorized 401 (mensajeDeError e)

/-- A signed token as data: the payload, the optional `exp` and `nbf`
instants (seconds), the key it was signed with, and whether its serialized
structure is well formed. -/
structure TokenData where
  payload : JwtPayload
  exp : Option Nat
  nbf : Option Nat
  secret : String
  bienFormado : Bool
  deriving Repr, DecidableEq

/-- Modelled from the spec: `verify` of the Token Service (§4.1).  The
implementation delegates to the external `jsonwebtoken` library, which is
not part of this repository; per the spec the verification is a pure
function of token, secret and current time that fails on a malformed
structure or wrong signature, on `nbf` in the future, and on a passed
`exp`, and otherwise returns the embedded claims. -/
def jwtVerify (secret : String) (now : Nat) (t : TokenData) :
    Except JwtError JwtPayload :=
  if !t.bienFormado || t.secret != secret then
    Except.error JwtError.jsonWebTokenError
  else if (match t.nbf with | some n => decide (now < n) | none => false) then
    Except.error JwtError.notBeforeError
  else if (match t.exp with | some e => decide (e ≤ now) | none => false) then
    Except.error JwtError.tokenExpiredError
  else
    Except.ok t.payload

/-- Row of the `clientes` table (`password` holds the bcrypt hash). -/
structure Cliente where
  id : Nat
  nombre : String
  email : String
  password : String
  deriving Repr, DecidableEq

/-- The JSON body (plus HTTP status) produced by the login controller. -/
structure LoginRespuesta where
  status : Nat
  success : Bool
  message : String
  token : Option String
  usuario : Option (Nat × String × String)
  deriving Repr, DecidableEq

/-- Modelled from the spec: `models/clientes.model.js` is imported by the
auth controller but absent from the repository; per §4.3 the Credential
Store looks a user up by email. -/
def buscarPorEmail (clientes : List Cliente) (email : String) : Option Cliente :=
  clientes.find? (fun c => c.email == email)

/-- `login(req, res)` of the auth controller.  `bcryptCompare` stands for
`bcrypt.compare` and `jwtSign` for `jwt.sign` (both external libraries),
so the embedding keeps exactly the branching of the controller: unknown
email and failed hash comparison both answer 401 with the same message. -/
def login (clientes : List Cliente) (bcryptCompare : String → String → Bool)
    (jwtSign : Nat → String) (email password : String) : LoginRespuesta :=
  match buscarPorEmail clientes email with
  | none =>
    { status := 401, success := false, message := "Email o password incorrectos",
      token := none, usuario := none }
  | some usuario =>
    if bcryptCompare password usuario.password then
      { status := 200, success := true, message := "Login exitoso",
        token := some (jwtSign usuario.id),
        usuario := some (usuario.id, usuario.nombre, usuario.email) }
    else
      { status := 401, success := false, message := "Email o password incorrectos",
        token := none, usuario := none }

/-- An entry of `estado.carrito` in the browser client: catalog data copied
at add time plus the requested `cantidad`; `stock` is the snapshot recorded
for later validations. -/
structure ItemCarrito where
  id : Nat
  nombre : String
  precio : Int
  cantidad : Int
  stock : Int
  deriving Repr, DecidableEq

/-- The slice of the global `estado` object that the cart logic reads:
presence of `usuario` and `token`, the loaded catalog, and the cart. -/
structure EstadoFront where
  usuario : Bool
  token : Bool
  productos : List Producto
  carrito : List ItemCarrito
  deriving Repr, DecidableEq

/-- `estaLogueado()`: `!!(estado.usuario && estado.token)`. -/
def estaLogueado (st : EstadoFront) : Bool := st.usuario && st.token

/-- In-place mutation of the object returned by `carrito.find(...)`:
the first entry with the given id gets the new `cantidad`. -/
def actualizarCantidadPrimero :
    List ItemCarrito → Nat → Int → List ItemCarrito
  | [], _, _ => []
  | it :: resto, pid, nueva =>
    if it.id == pid then { it with cantidad := nueva } :: resto
    else it :: actualizarCantidadPrimero resto pid nueva

/-- `agregarAlCarrito(productoId, cantidad)`: abort unless logged in, the
product exists in the loaded catalog, and the requested amount fits the
stock; then either sum onto the existing cart entry (re-checking the catalog
stock) or push a new entry that snapshots the product data. -/
def agregarAlCarrito (productoId : Nat) (cantidad : Int)
    (st : EstadoFront) : EstadoFront :=
  if !(estaLogueado st) then st
  else
    match st.productos.find? (fun p => p.id == productoId) with
    | none => st
    | some producto =>
      if producto.stock < cantidad then st
      else
        match st.carrito.find? (fun item => item.id == productoId) with
        | some productoEnCarrito =>
          let nuevaCantidad := productoEnCarrito.cantidad + cantidad
          if producto.stock < nuevaCantidad then st
          else { st with carrito :=
                   actualizarCantidadPrimero st.carrito productoId nuevaCantidad }
        | none =>
          { st with carrito := st.carrito ++
              [{ id := producto.id, nombre := producto.nombre,
                 precio := producto.precio, cantidad := cantidad,
                 stock := producto.stock }] }

/-- `quitarDelCarrito(productoId)`: `findIndex` plus `splice(index, 1)`,
removing the first matching entry when present. -/
def quitarDelCarrito (productoId : Nat) (st : EstadoFront) : EstadoFront :=
  { st with carrito := st.carrito.eraseP (fun item => item.id == productoId) }

/-- `cambiarCantidad(productoId, nuevaCantidad)`: amounts below 1 delegate
to `quitarDelCarrito`; otherwise the new amount is rejected when it exceeds
the stock snapshot stored on the cart entry. -/
def cambiarCantidad (productoId : Nat) (nuevaCantidad : Int)
    (st : EstadoFront) : EstadoFront :=
  if nuevaCantidad < 1 then quitarDelCarrito productoId st
  else
    match st.carrito.find? (fun item => item.id == productoId) with
    | none => st
    | some productoEnCarrito =>
      if productoEnCarrito.stock < nuevaCantidad then st
      else { st with carrito :=
               actualizarCantidadPrimero st.carrito productoId nuevaCantidad }

/-- One user interaction with the cart. -/
inductive OpCarrito where
  | agregar (productoId : Nat) (cantidad : Int)
  | cambiar (productoId : Nat) (nuevaCantidad : Int)
  | quitar (productoId : Nat)
  deriving Repr, DecidableEq

/-- Dispatch one cart operation. -/
def aplicarOp (st : EstadoFront) : OpCarrito → EstadoFront
  | OpCarrito.agregar pid c => agregarAlCarrito pid c st
  | OpCarrito.cambiar pid n => cambiarCantidad pid n st
  | OpCarrito.quitar pid => quitarDelCarrito pid st

/-- Run a sequence of cart operations from a starting state. -/
def aplicarOps (ops : List OpCarrito) (st : EstadoFront) : EstadoFront :=
  ops.foldl aplicarOp st

/-- Every cart entry requests at least one unit and no more than its
recorded stock snapshot. -/
def cantidadesValidas (st : EstadoFront) : Prop :=
  ∀ it ∈ st.carrito, 1 ≤ it.cantidad ∧ it.cantidad ≤ it.stock

/-- The cart holds at most one entry per product identifier. -/
def idsSinDuplicados (st : EstadoFront) : Prop :=
  (st.carrito.map (fun it => it.id)).Nodup

/-- Every cart entry snapshots the stock of the catalog product it was
created from (the catalog is not mutated by cart operations). -/
def snapshotCoherente (st : EstadoFront) : Prop :=
  ∀ it ∈ st.carrito,
    ∃ p, st.productos.find? (fun q => q.id == it.id) = some p ∧ p.stock = it.stock

/-- The full cart invariant. -/
def invCarrito (st : EstadoFront) : Prop :=
  cantidadesValidas st ∧ idsSinDuplicados st ∧ snapshotCoherente st

/-- The restriction under which the cart invariant is preserved: additions
request a positive amount (the UI enforces `min="1"` on the amount input);
the other two operations are unrestricted. -/
def opValida : OpCarrito → Prop
  | OpCarrito.agregar _ c => 1 ≤ c
  | OpCarrito.cambiar _ _ => True
  | OpCarrito.quitar _ => True

/-- A token verifier that rejects everything, used to instantiate the gate
at concrete inputs. -/
def verifyNever : String → Except JwtError JwtPayload :=
  fun _ => Except.error JwtError.jsonWebTokenError

/-- A concrete credential store with a single registered user. -/
def clientes0 : List Cliente :=
  [{ id := 1, nombre := "Ana", email := "ana@x.com", password := "HASH" }]

/-- Executable validity of one line request against a store: the referenced
product resolves and the quantity lies between 1 and its current stock. -/
def lineaValida (db : DB) (r : LineaReq) : Bool :=
  match db.productos.find? (fun q => q.id == r.producto_id) with
  | none => false
  | some p => 1 ≤ r.cantidad && r.cantidad ≤ p.stock

lemma agregarProductoAPedido_ok (pedidoId productoId : Nat) (cantidad : Int)
    (db : DB) (h : db.productos.any (fun p => p.id == productoId) = true) :
    agregarProductoAPedido pedidoId productoId cantidad db =
      (Except.ok { id := db.nextLineaId, pedido_id := pedidoId,
                   producto_id := productoId, cantidad := cantidad },
       { db with
           lineas := db.lineas ++
             [{ id := db.nextLineaId, pedido_id := pedidoId,
                producto_id := productoId, cantidad := cantidad }],
           nextLineaId := db.nextLineaId + 1 }) := by
  simp [agregarProductoAPedido, h]

lemma agregarLineasAPedido_ok (pedidoId : Nat) (reqs : List LineaReq) :
    ∀ db : DB,
      (∀ r ∈ reqs, db.productos.any (fun p => p.id == r.producto_id) = true) →
      ∃ ls db2, agregarLineasAPedido pedidoId reqs db = (Except.ok ls, db2)
        ∧ ls.length = reqs.length
        ∧ db2.productos = db.productos
        ∧ db2.pedidos = db.pedidos
        ∧ db2.lineas.length = db.lineas.length + reqs.length := by
  induction reqs with
  | nil =>
    intro db _
    exact ⟨[], db, rfl, rfl, rfl, rfl, by simp⟩
  | cons r rs ih =>
    intro db hex
    have hr : db.productos.any (fun p => p.id == r.producto_id) = true :=
      hex r (List.mem_cons_self r rs)
    have h1 := agregarProductoAPedido_ok pedidoId r.producto_id r.cantidad db hr
    obtain ⟨ls, db2, heq, hlen, hprod, hped, hlin⟩ :=
      ih { db with
             lineas := db.lineas ++
               [{ id := db.nextLineaId, pedido_id := pedidoId,
                  producto_id := r.producto_id, cantidad := r.cantidad }],
             nextLineaId := db.nextLineaId + 1 }
        (fun x hx => hex x (List.mem_cons_of_mem r hx))
    refine ⟨{ id := db.nextLineaId, pedido_id := pedidoId,
              producto_id := r.producto_id, cantidad := r.cantidad } :: ls,
            db2, ?_, ?_, ?_, ?_, ?_⟩
    · simp only [agregarLineasAPedido, h1, heq]
    · simp [hlen]
    · simpa using hprod
    · simpa using hped
    · simp at hlin ⊢
      omega

lemma foldl_add_cantidad (reqs : List LineaReq) :
    ∀ a : Int, reqs.foldl (fun total p => total + p.cantidad) a
      = a + (reqs.map (fun r => r.cantidad)).sum := by
  induction reqs with
  | nil => intro a; simp
  | cons r rs ih =>
    intro a
    simp only [List.foldl_cons, List.map_cons, List.sum_cons, ih]
    ring

lemma crear_ok (c : Nat) (reqs : List LineaReq) (db : DB)
    (hex : ∀ r ∈ reqs, db.productos.any (fun p => p.id == r.producto_id) = true) :
    ∃ res db2, crear c reqs db = (Except.ok res, db2)
      ∧ res.productos.length = reqs.length
      ∧ res.total_productos = (reqs.map (fun r => r.cantidad)).sum
      ∧ res.estado = "pendiente"
      ∧ db2.pedidos.length = db.pedidos.length + 1
      ∧ db2.lineas.length = db.lineas.length + reqs.length := by
  obtain ⟨ls, db2, heq, hlen, hprod, hped, hlin⟩ :=
    agregarLineasAPedido_ok db.nextPedidoId reqs
      { db with
          pedidos := db.pedidos ++
            [{ id := db.nextPedidoId, cliente_id := c,
               estado := "pendiente", fecha := db.now }],
          nextPedidoId := db.nextPedidoId + 1 }
      (fun r hr => hex r hr)
  refine ⟨{ id := db.nextPedidoId, cliente_id := c, estado := "pendiente",
            productos := ls,
            total_productos :=
              reqs.foldl (fun total p => total + p.cantidad) 0 },
          db2, ?_, hlen, ?_, rfl, ?_, ?_⟩
  · simp only [crear, crearPedido, heq]
  · simpa using foldl_add_cantidad reqs 0
  · rw [hped]; simp
  · simpa using hlin

/-- C1: order persistence is not atomic.  `crear` runs one autocommitting
INSERT per row with no transactional boundary, so when the second line
INSERT fails (here: its `producto_id` 999 violates the foreign key), the
already committed header row and first line row remain in the store while
the error propagates to the caller. -/
theorem crear_commit_parcial :
    (crear 7 [{ producto_id := 1, cantidad := 2 },
              { producto_id := 999, cantidad := 1 }] db0).1
        = Except.error "foreign key constraint fails on producto_id"
      ∧ (crear 7 [{ producto_id := 1, cantidad := 2 },
                  { producto_id := 999, cantidad := 1 }] db0).2.pedidos
        = [{ id := 456, cliente_id := 7, estado := "pendiente", fecha := 100 }]
      ∧ (crear 7 [{ producto_id := 1, cantidad := 2 },
                  { producto_id := 999, cantidad := 1 }] db0).2.lineas
        = [{ id := 1, pedido_id := 456, producto_id := 1, cantidad := 2 }] :=
  ⟨rfl, rfl, rfl⟩

/-- C2: `placeOrder` on an empty line-request list fails with `EmptyCart`
and returns the store unchanged, so no order header row and no order line
row is persisted. -/
theorem placeOrder_carrito_vacio (c : Nat) (db : DB) :
    placeOrder c [] db = (Except.error OrderError.emptyCart, db) := rfl

/-- C3 (counterexample): a request whose product id 999 resolves to no
product but whose quantity is 0 fails with `InvalidQuantity`, not
`ProductNotFound`, because the quantity check of §4.4 step 2 precedes the
product-resolution check of step 3. -/
theorem placeOrder_inexistente_cantidad_cero :
    placeOrder 1 [{ producto_id := 999, cantidad := 0 }] db0
        = (Except.error OrderError.invalidQuantity, db0)
      ∧ db0.productos.all (fun p => p.id != 999) = true
      ∧ OrderError.invalidQuantity ≠ OrderError.productNotFound :=
  ⟨rfl, rfl, by decide⟩

/-- C3 (amended): when every requested quantity is positive and some
requested product id resolves to no product, `placeOrder` fails with
`ProductNotFound` and returns the store unchanged — nothing is persisted,
no partial order exists. -/
theorem placeOrder_producto_inexistente (c : Nat) (reqs : List LineaReq)
    (db : DB)
    (hpos : ∀ r ∈ reqs, 1 ≤ r.cantidad)
    (hmiss : ∃ r ∈ reqs, ∀ p ∈ db.productos, p.id ≠ r.producto_id) :
    placeOrder c reqs db = (Except.error OrderError.productNotFound, db) := by
  obtain ⟨r0, hr0, hnone⟩ := hmiss
  have hne : reqs.isEmpty = false := by
    cases reqs with
    | nil => cases hr0
    | cons a as => rfl
  have hq : reqs.any (fun r => decide (r.cantidad ≤ 0)) = false := by
    rw [List.any_eq_false]
    intro r hr
    have := hpos r hr
    simp
    omega
  have hall : reqs.all
      (fun r => db.productos.any (fun p => p.id == r.producto_id)) = false := by
    rw [Bool.eq_false_iff]
    intro hcontra
    rw [List.all_eq_true] at hcontra
    have h2 := hcontra r0 hr0
    rw [List.any_eq_true] at h2
    obtain ⟨p, hp, hid⟩ := h2
    exact hnone p hp (by simpa using hid)
  simp [placeOrder, hne, hq, hall]

/-- C3 (witness): a concrete positive-quantity request for the nonexistent
product 999 fails with `ProductNotFound` and leaves the store unchanged. -/
theorem placeOrder_producto_inexistente_testigo :
    placeOrder 1 [{ producto_id := 999, cantidad := 1 }] db0
      = (Except.error OrderError.productNotFound, db0) :=
  placeOrder_producto_inexistente 1 _ db0 (by decide) (by decide)

/-- C4 (counterexample): a request for 99 units of product 1, whose stock
snapshot is 5, does not fail with any `InsufficientStock` error: it
succeeds and persists the header and the line. -/
theorem placeOrder_sobre_stock_exito :
    (placeOrder 1 [{ producto_id := 1, cantidad := 99 }] db0).1
        = Except.ok { id := 456, cliente_id := 1, estado := "pendiente",
                      productos := [{ id := 1, pedido_id := 456,
                                      producto_id := 1, cantidad := 99 }],
                      total_productos := 99 }
      ∧ (placeOrder 1 [{ producto_id := 1, cantidad := 99 }] db0).2.pedidos.length = 1
      ∧ (placeOrder 1 [{ producto_id := 1, cantidad := 99 }] db0).2.lineas.length = 1
      ∧ db0.productos = [{ id := 1, nombre := "Camiseta", precio := 15, stock := 5 }]
      ∧ (5 : Int) < 99 :=
  ⟨rfl, rfl, rfl, rfl, by decide⟩

/-- C4 (amended): the server-side workflow performs no stock re-validation:
for existing products and positive quantities, even when some requested
quantity strictly exceeds the stock of its product, `placeOrder` succeeds
and persists the header and every line. -/
theorem placeOrder_sin_validacion_de_stock (c : Nat) (reqs : List LineaReq)
    (db : DB)
    (hpos : ∀ r ∈ reqs, 1 ≤ r.cantidad)
    (hex : ∀ r ∈ reqs, ∃ p ∈ db.productos, p.id = r.producto_id)
    (hover : ∃ r ∈ reqs, ∃ p ∈ db.productos,
        p.id = r.producto_id ∧ p.stock < r.cantidad) :
    (∃ res, (placeOrder c reqs db).1 = Except.ok res)
      ∧ (placeOrder c reqs db).2.pedidos.length = db.pedidos.length + 1
      ∧ (placeOrder c reqs db).2.lineas.length = db.lineas.length + reqs.length := by
  obtain ⟨r0, hr0, _⟩ := hover
  have hne : reqs.isEmpty = false := by
    cases reqs with
    | nil => cases hr0
    | cons a as => rfl
  have hq : reqs.any (fun r => decide (r.cantidad ≤ 0)) = false := by
    rw [List.any_eq_false]
    intro r hr
    have := hpos r hr
    simp
    omega
  have hex2 : ∀ r ∈ reqs,
      db.productos.any (fun p => p.id == r.producto_id) = true := by
    intro r hr
    obtain ⟨p, hp, hid⟩ := hex r hr
    rw [List.any_eq_true]
    exact ⟨p, hp, by simpa using hid⟩
  have hall : reqs.all
      (fun r => db.productos.any (fun p => p.id == r.producto_id)) = true := by
    rw [List.all_eq_true]
    exact hex2
  obtain ⟨res, db2, heq, _, _, _, hped, hlin⟩ := crear_ok c reqs db hex2
  have hpo : placeOrder c reqs db = (Except.ok res, db2) := by
    simp [placeOrder, hne, hq, hall, heq]
  rw [hpo]
  exact ⟨⟨res, rfl⟩, hped, hlin⟩

/-- C4 (witness): a concrete request of 7 units of product 1 (stock 5)
succeeds and persists one header and one line. -/
theorem placeOrder_sin_validacion_de_stock_testigo :
    (∃ res, (placeOrder 1 [{ producto_id := 1, cantidad := 7 }] db0).1
        = Except.ok res)
      ∧ (placeOrder 1 [{ producto_id := 1, cantidad := 7 }] db0).2.pedidos.length
        = db0.pedidos.length + 1
      ∧ (placeOrder 1 [{ producto_id := 1, cantidad := 7 }] db0).2.lineas.length
        = db0.lineas.length
          + ([{ producto_id := 1, cantidad := 7 }] : List LineaReq).length :=
  placeOrder_sin_validacion_de_stock 1 _ db0 (by decide) (by decide) (by decide)

/-- C5 (counterexample): the single-line request for 0 units of the
existing product 1 (0 ≤ stock 5) does not succeed: it fails with
`InvalidQuantity`, because §4.4 step 2 rejects non-positive quantities. -/
theorem placeOrder_cantidad_cero :
    (placeOrder 1 [{ producto_id := 1, cantidad := 0 }] db0).1
        = Except.error OrderError.invalidQuantity
      ∧ db0.productos = [{ id := 1, nombre := "Camiseta", precio := 15, stock := 5 }]
      ∧ (0 : Int) ≤ 5 :=
  ⟨rfl, rfl, by decide⟩

/-- C5 (amended): for every nonempty request list in which each line
resolves to an existing product and requests between 1 and that product
stock, `placeOrder` succeeds with status `pendiente`, returns one persisted
line per requested line, and reports `total_productos` as the sum of the
requested quantities. -/
theorem placeOrder_exito (c : Nat) (reqs : List LineaReq) (db : DB)
    (hne : reqs ≠ [])
    (hval : reqs.all (lineaValida db) = true) :
    ∃ res db2, placeOrder c reqs db = (Except.ok res, db2)
      ∧ res.productos.length = reqs.length
      ∧ db2.lineas.length = db.lineas.length + reqs.length
      ∧ res.total_productos = (reqs.map (fun r => r.cantidad)).sum
      ∧ res.estado = "pendiente" := by
  rw [List.all_eq_true] at hval
  have hdet : ∀ r ∈ reqs, ∃ p,
      db.productos.find? (fun q => q.id == r.producto_id) = some p
        ∧ 1 ≤ r.cantidad ∧ r.cantidad ≤ p.stock := by
    intro r hr
    have h := hval r hr
    unfold lineaValida at h
    cases hfind : db.productos.find? (fun q => q.id == r.producto_id) with
    | none => rw [hfind] at h; cases h
    | some p =>
      rw [hfind] at h
      simp at h
      exact ⟨p, rfl, h.1, h.2⟩
  have hempty : reqs.isEmpty = false := by
    cases reqs with
    | nil => exact absurd rfl hne
    | cons a as => rfl
  have hq : reqs.any (fun r => decide (r.cantidad ≤ 0)) = false := by
    rw [List.any_eq_false]
    intro r hr
    obtain ⟨p, _, h1, _⟩ := hdet r hr
    simp
    omega
  have hex2 : ∀ r ∈ reqs,
      db.productos.any (fun p => p.id == r.producto_id) = true := by
    intro r hr
    obtain ⟨p, hfind, _, _⟩ := hdet r hr
    rw [List.any_eq_true]
    exact ⟨p, List.mem_of_find?_eq_some hfind, by simpa using List.find?_some hfind⟩
  have hall : reqs.all
      (fun r => db.productos.any (fun p => p.id == r.producto_id)) = true := by
    rw [List.all_eq_true]
    exact hex2
  obtain ⟨res, db2, heq, hlen, htot, hest, _, hlin⟩ := crear_ok c reqs db hex2
  refine ⟨res, db2, ?_, hlen, hlin, htot, hest⟩
  simp [placeOrder, hempty, hq, hall, heq]

/-- C5 (witness): a concrete valid request (2 units of product 1, stock 5)
succeeds with one line, total 2 and status pendiente. -/
theorem placeOrder_exito_testigo :
    ∃ res db2, placeOrder 3 [{ producto_id := 1, cantidad := 2 }] db0
        = (Except.ok res, db2)
      ∧ res.productos.length = ([{ producto_id := 1, cantidad := 2 }] : List LineaReq).length
      ∧ db2.lineas.length
        = db0.lineas.length + ([{ producto_id := 1, cantidad := 2 }] : List LineaReq).length
      ∧ res.total_productos
        = ([{ producto_id := 1, cantidad := 2 }].map
            (fun r : LineaReq => r.cantidad)).sum
      ∧ res.estado = "pendiente" :=
  placeOrder_exito 3 _ db0 (by decide) (by decide)

/-- C6: the auth gate answers 401 with mensaje "Falta cabecera
Authorization" when the designated header is absent, answers 401 with
mensaje "Formato de token no válido" when the credential does not start
with the Bearer scheme token followed by a nonempty token, and otherwise
delegates to the verifier: a verification error produces the mapped 401
(so the downstream handler never runs, no `next` outcome being produced in
any 401 case), and success attaches the resolved subject identifier
`cliente_id` of the decoded payload to the request context. -/
theorem verificarToken_spec (verify : String → Except JwtError JwtPayload) :
    verificarToken verify none
        = AuthOutcome.unauthorized 401 "Falta cabecera Authorization"
      ∧ (∀ h : String, h ≠ "" →
          ((dividir h).headD "" ≠ "Bearer" ∨ (dividir h).getD 1 "" = "") →
          verificarToken verify (some h)
            = AuthOutcome.unauthorized 401 "Formato de token no válido")
      ∧ (∀ h t : String, h ≠ "" → (dividir h).headD "" = "Bearer" →
          (dividir h).getD 1 "" = t → t ≠ "" →
          verificarToken verify (some h)
            = match verify t with
              | Except.ok d => AuthOutcome.next
                  { cliente_id := d.cliente_id, id := d.cliente_id,
                    email := d.email, nombre := d.nombre }
              | Except.error e =>
                  AuthOutcome.unauthorized 401 (mensajeDeError e)) := by
  refine ⟨rfl, ?_, ?_⟩
  · intro h hne hbad
    have hne2 : (h == "") = false := by simpa using hne
    have hcond : (((dividir h).headD "" != "Bearer")
        || ((dividir h).getD 1 "" == "")) = true := by
      rw [Bool.or_eq_true, bne_iff_ne, beq_iff_eq]
      exact hbad
    simp only [verificarToken, hne2, Bool.false_eq_true, if_false, hcond, if_true]
  · intro h t hne hb ht htne
    have hne2 : (h == "") = false := by simpa using hne
    have hcond : (((dividir h).headD "" != "Bearer")
        || ((dividir h).getD 1 "" == "")) = false := by
      rw [Bool.or_eq_false_iff, bne_eq_false_iff_eq, beq_eq_false_iff_ne, ht]
      exact ⟨hb, htne⟩
    simp only [verificarToken, hne2, Bool.false_eq_true, if_false, hcond]
    rw [ht]

/-- C6 (witness): with a verifier that rejects everything, a Basic-scheme
credential is refused with the invalid-format 401. -/
theorem verificarToken_spec_testigo :
    verificarToken verifyNever (some "Basic abc")
      = AuthOutcome.unauthorized 401 "Formato de token no válido" :=
  (verificarToken_spec verifyNever).2.1 "Basic abc" (by decide)
    (Or.inl (by decide))

/-- C7: token verification fails with the expired kind (mapped to mensaje
"Token expirado") when the expiration instant has passed, with the
malformed kind ("Token malformado") when the structure or the signature is
invalid, with the not-yet-valid kind ("Token no es válido todavía") when
the activation instant `nbf` is in the future, and on success returns the
payload carrying the embedded subject identifier. -/
theorem jwtVerify_spec (secret : String) (now : Nat) (t : TokenData) :
    ((t.bienFormado = false ∨ t.secret ≠ secret) →
        jwtVerify secret now t = Except.error JwtError.jsonWebTokenError)
      ∧ (t.bienFormado = true → t.secret = secret →
          (∀ n ∈ t.nbf, n ≤ now) → (∃ e ∈ t.exp, e ≤ now) →
          jwtVerify secret now t = Except.error JwtError.tokenExpiredError)
      ∧ (t.bienFormado = true → t.secret = secret →
          (∃ n ∈ t.nbf, now < n) →
          jwtVerify secret now t = Except.error JwtError.notBeforeError)
      ∧ (t.bienFormado = true → t.secret = secret →
          (∀ n ∈ t.nbf, n ≤ now) → (∀ e ∈ t.exp, now < e) →
          jwtVerify secret now t = Except.ok t.payload)
      ∧ mensajeDeError JwtError.tokenExpiredError = "Token expirado"
      ∧ mensajeDeError JwtError.jsonWebTokenError = "Token malformado"
      ∧ mensajeDeError JwtError.notBeforeError = "Token no es válido todavía" := by
  refine ⟨?_, ?_, ?_, ?_, rfl, rfl, rfl⟩
  · intro hbad
    have hcond : (!t.bienFormado || (t.secret != secret)) = true := by
      cases hbad with
      | inl hb => simp [hb]
      | inr hb => simp [hb]
    simp [jwtVerify, hcond]
  · intro hbf hsec hnbf hexp
    obtain ⟨e, he, hle⟩ := hexp
    rw [Option.mem_def] at he
    have hnbf2 : (match t.nbf with
        | some n => decide (now < n) | none => false) = false := by
      cases hn : t.nbf with
      | none => rfl
      | some n =>
        have := hnbf n (by rw [Option.mem_def, hn])
        simp
        omega
    simp [jwtVerify, hbf, hsec, hnbf2, he, hle]
  · intro hbf hsec hnbf
    obtain ⟨n, hn, hlt⟩ := hnbf
    rw [Option.mem_def] at hn
    have hn2 : (match t.nbf with
        | some n => decide (now < n) | none => false) = true := by
      rw [hn]
      simp
      omega
    simp [jwtVerify, hbf, hsec, hn2]
  · intro hbf hsec hnbf hexp
    have hnbf2 : (match t.nbf with
        | some n => decide (now < n) | none => false) = false := by
      cases hn : t.nbf with
      | none => rfl
      | some n =>
        have := hnbf n (by rw [Option.mem_def, hn])
        simp
        omega
    have hexp2 : (match t.exp with
        | some e => decide (e ≤ now) | none => false) = false := by
      cases he : t.exp with
      | none => rfl
      | some e =>
        have := hexp e (by rw [Option.mem_def, he])
        simp
        omega
    simp [jwtVerify, hbf, hsec, hnbf2, hexp2]

/-- C7 (witness): a well-formed, correctly signed token whose `exp` 50 is
past the current instant 60 (and whose `nbf` 10 has been reached) fails
with the expired kind. -/
theorem jwtVerify_spec_testigo :
    jwtVerify "s" 60
        { payload := { cliente_id := 7, email := "ana@x.com", nombre := "Ana" },
          exp := some 50, nbf := some 10, secret := "s", bienFormado := true }
      = Except.error JwtError.tokenExpiredError :=
  (jwtVerify_spec "s" 60 _).2.1 rfl rfl
    (by intro n hn; rw [Option.mem_def] at hn; cases hn; omega)
    ⟨50, rfl, by omega⟩

/-- C8: login is enumeration resistant: an attempt whose email resolves to
no account and an attempt whose email resolves to an account but whose
secret fails the hash comparison produce the same full response: status
401, success false, and the identical message. -/
theorem login_resistencia_enumeracion (clientes : List Cliente)
    (cmp : String → String → Bool) (sign : Nat → String)
    (email1 pw1 email2 pw2 : String)
    (h1 : buscarPorEmail clientes email1 = none)
    (h2 : ∃ u, buscarPorEmail clientes email2 = some u
        ∧ cmp pw2 u.password = false) :
    login clientes cmp sign email1 pw1 = login clientes cmp sign email2 pw2
      ∧ (login clientes cmp sign email1 pw1).status = 401
      ∧ (login clientes cmp sign email1 pw1).success = false
      ∧ (login clientes cmp sign email1 pw1).message
        = "Email o password incorrectos" := by
  obtain ⟨u, hu, hc⟩ := h2
  have e1 : login clientes cmp sign email1 pw1
      = { status := 401, success := false,
          message := "Email o password incorrectos",
          token := none, usuario := none } := by
    simp [login, h1]
  have e2 : login clientes cmp sign email2 pw2
      = { status := 401, success := false,
          message := "Email o password incorrectos",
          token := none, usuario := none } := by
    simp [login, hu, hc]
  rw [e1, e2]
  exact ⟨rfl, rfl, rfl, rfl⟩

/-- C8 (witness): against the concrete store, login with an unknown email
and login with the registered email but a wrong secret yield the same 401
response with the shared message. -/
theorem login_resistencia_enumeracion_testigo :
    login clientes0 (fun a b => a == b) (fun _ => "T") "nadie@x.com" "loquesea"
        = login clientes0 (fun a b => a == b) (fun _ => "T") "ana@x.com" "mala"
      ∧ (login clientes0 (fun a b => a == b) (fun _ => "T")
          "nadie@x.com" "loquesea").status = 401
      ∧ (login clientes0 (fun a b => a == b) (fun _ => "T")
          "nadie@x.com" "loquesea").success = false
      ∧ (login clientes0 (fun a b => a == b) (fun _ => "T")
          "nadie@x.com" "loquesea").message = "Email o password incorrectos" :=
  login_resistencia_enumeracion clientes0 _ _ _ _ _ _ (by decide)
    ⟨{ id := 1, nombre := "Ana", email := "ana@x.com", password := "HASH" },
     by decide, by decide⟩

/-- C9: the order listing returns exactly the header rows whose owning
client identifier equals the given subject (rows of other subjects never
appear), in newest-first order of the creation timestamp, and it returns
the empty list — the function is total, never an error — when the subject
owns no order. -/
theorem obtenerPedidosDeCliente_spec (c : Nat) (db : DB) :
    (∀ p : PedidoRow,
        p ∈ obtenerPedidosDeCliente c db ↔ p ∈ db.pedidos ∧ p.cliente_id = c)
      ∧ (obtenerPedidosDeCliente c db).Pairwise (fun a b => b.fecha ≤ a.fecha)
      ∧ ((∀ p ∈ db.pedidos, p.cliente_id ≠ c) →
          obtenerPedidosDeCliente c db = []) := by
  refine ⟨?_, ?_, ?_⟩
  · intro p
    unfold obtenerPedidosDeCliente
    rw [List.mem_mergeSort, List.mem_filter]
    simp
  · unfold obtenerPedidosDeCliente
    refine List.Pairwise.imp ?_
      (List.sorted_mergeSort ?_ ?_
        (db.pedidos.filter (fun p => p.cliente_id == c)))
    · intro a b hab
      simpa using hab
    · intro a b d hab hbd
      simp at hab hbd ⊢
      omega
    · intro a b
      simp
      omega
  · intro hnone
    unfold obtenerPedidosDeCliente
    have hfil : db.pedidos.filter (fun p => p.cliente_id == c) = [] := by
      rw [List.filter_eq_nil_iff]
      intro p hp
      simpa using hnone p hp
    rw [hfil, List.mergeSort_nil]

/-- C9 (witness): a subject with no orders in the concrete store receives
the empty list. -/
theorem obtenerPedidosDeCliente_spec_testigo :
    obtenerPedidosDeCliente 42 db0 = [] :=
  (obtenerPedidosDeCliente_spec 42 db0).2.2
    (by intro p hp; simp [db0] at hp)

lemma actualizar_map_id (l : List ItemCarrito) (pid : Nat) (n : Int) :
    (actualizarCantidadPrimero l pid n).map (fun it => it.id)
      = l.map (fun it => it.id) := by
  induction l with
  | nil => rfl
  | cons it resto ih =>
    unfold actualizarCantidadPrimero
    cases hid : (it.id == pid) with
    | true => simp
    | false => simp [ih]

lemma actualizar_mem_of_find (l : List ItemCarrito) (pid : Nat) (n : Int)
    (a : ItemCarrito)
    (hfind : l.find? (fun it => it.id == pid) = some a) :
    ∀ x ∈ actualizarCantidadPrimero l pid n,
      x ∈ l ∨ x = { a with cantidad := n } := by
  induction l with
  | nil => simp at hfind
  | cons it resto ih =>
    intro x hx
    cases hid : (it.id == pid) with
    | true =>
      simp only [List.find?_cons, hid, Option.some.injEq] at hfind
      subst hfind
      unfold actualizarCantidadPrimero at hx
      rw [hid] at hx
      simp only [if_true] at hx
      rcases List.mem_cons.mp hx with heq | hmem
      · exact Or.inr heq
      · exact Or.inl (List.mem_cons_of_mem it hmem)
    | false =>
      simp only [List.find?_cons, hid, Bool.false_eq_true, if_false] at hfind
      unfold actualizarCantidadPrimero at hx
      rw [hid] at hx
      simp only [Bool.false_eq_true, if_false] at hx
      rcases List.mem_cons.mp hx with heq | hmem
      · exact Or.inl (heq ▸ List.mem_cons_self it resto)
      · rcases ih hfind x hmem with h1 | h2
        · exact Or.inl (List.mem_cons_of_mem it h1)
        · exact Or.inr h2

lemma invariante_actualizar (st : EstadoFront) (pid : Nat) (n : Int)
    (a : ItemCarrito)
    (hfind : st.carrito.find? (fun it => it.id == pid) = some a)
    (hinv : invCarrito st) (h1 : 1 ≤ n) (h2 : n ≤ a.stock) :
    invCarrito { st with carrito := actualizarCantidadPrimero st.carrito pid n } := by
  obtain ⟨hcant, hnodup, hsnap⟩ := hinv
  refine ⟨?_, ?_, ?_⟩
  · intro x hx
    rcases actualizar_mem_of_find st.carrito pid n a hfind x hx with hmem | heq
    · exact hcant x hmem
    · subst heq
      exact ⟨h1, h2⟩
  · show ((actualizarCantidadPrimero st.carrito pid n).map (fun it => it.id)).Nodup
    rw [actualizar_map_id]
    exact hnodup
  · intro x hx
    rcases actualizar_mem_of_find st.carrito pid n a hfind x hx with hmem | heq
    · exact hsnap x hmem
    · subst heq
      exact hsnap a (List.mem_of_find?_eq_some hfind)

lemma quitarDelCarrito_inv (pid : Nat) (st : EstadoFront)
    (hinv : invCarrito st) : invCarrito (quitarDelCarrito pid st) := by
  obtain ⟨hcant, hnodup, hsnap⟩ := hinv
  refine ⟨?_, ?_, ?_⟩
  · intro x hx
    exact hcant x ((List.eraseP_sublist _).subset hx)
  · show ((st.carrito.eraseP (fun item => item.id == pid)).map
      (fun it => it.id)).Nodup
    exact List.Nodup.sublist ((List.eraseP_sublist _).map _) hnodup
  · intro x hx
    exact hsnap x ((List.eraseP_sublist _).subset hx)

lemma cambiarCantidad_inv (pid : Nat) (n : Int) (st : EstadoFront)
    (hinv : invCarrito st) : invCarrito (cambiarCantidad pid n st) := by
  unfold cambiarCantidad
  split
  next h1 => exact quitarDelCarrito_inv pid st hinv
  next h1 =>
    split
    next => exact hinv
    next a hfind =>
      split
      next h2 => exact hinv
      next h2 =>
        exact invariante_actualizar st pid n a hfind hinv (by omega) (by omega)

lemma agregarAlCarrito_inv (pid : Nat) (c : Int) (st : EstadoFront)
    (hc : 1 ≤ c) (hinv : invCarrito st) :
    invCarrito (agregarAlCarrito pid c st) := by
  unfold agregarAlCarrito
  split
  next hlog => exact hinv
  next hlog =>
    split
    next => exact hinv
    next producto hfindp =>
      split
      next hst => exact hinv
      next hst =>
        split
        next a hfindc =>
          show invCarrito (if producto.stock < a.cantidad + c then st
            else { st with carrito :=
                     actualizarCantidadPrimero st.carrito pid (a.cantidad + c) })
          split
          next h2 => exact hinv
          next h2 =>
            have haid : a.id = pid := by
              simpa using List.find?_some hfindc
            obtain ⟨p, hp, hsp⟩ := hinv.2.2 a (List.mem_of_find?_eq_some hfindc)
            rw [haid, hfindp] at hp
            cases hp
            have h1a : 1 ≤ a.cantidad := (hinv.1 a (List.mem_of_find?_eq_some hfindc)).1
            exact invariante_actualizar st pid (a.cantidad + c) a hfindc hinv
              (by omega) (by omega)
        next hfindc =>
          have hpid : producto.id = pid := by
            simpa using List.find?_some hfindp
          have hnotin : ∀ it ∈ st.carrito, it.id ≠ pid := by
            intro it hit
            have := List.find?_eq_none.mp hfindc it hit
            simpa using this
          obtain ⟨hcant, hnodup, hsnap⟩ := hinv
          refine ⟨?_, ?_, ?_⟩
          · intro x hx
            rcases List.mem_append.mp hx with hmem | hnew
            · exact hcant x hmem
            · rw [List.mem_singleton] at hnew
              subst hnew
              exact ⟨hc, by simpa using not_lt.mp hst⟩
          · unfold idsSinDuplicados
            have hnodup2 : (st.carrito.map (fun it => it.id)).Nodup := hnodup
            rw [List.map_append]
            refine List.Nodup.append hnodup2 (by simp) ?_
            intro y hy1 hy2
            simp at hy2
            rw [List.mem_map] at hy1
            obtain ⟨it, hit, hid⟩ := hy1
            exact hnotin it hit (by rw [hid, hy2, hpid])
          · intro x hx
            rcases List.mem_append.mp hx with hmem | hnew
            · exact hsnap x hmem
            · rw [List.mem_singleton] at hnew
              subst hnew
              exact ⟨producto, by simpa [hpid] using hfindp, rfl⟩

lemma aplicarOp_inv (st : EstadoFront) (op : OpCarrito) (hop : opValida op)
    (hinv : invCarrito st) : invCarrito (aplicarOp st op) := by
  cases op with
  | agregar pid c => exact agregarAlCarrito_inv pid c st hop hinv
  | cambiar pid n => exact cambiarCantidad_inv pid n st hinv
  | quitar pid => exact quitarDelCarrito_inv pid st hinv

lemma aplicarOps_inv (ops : List OpCarrito) :
    ∀ st : EstadoFront, (∀ op ∈ ops, opValida op) → invCarrito st →
      invCarrito (aplicarOps ops st) := by
  induction ops with
  | nil =>
    intro st _ h
    exact h
  | cons op ops ih =>
    intro st hops hinv
    have h1 := aplicarOp_inv st op (hops op (List.mem_cons_self op ops)) hinv
    have h2 := ih (aplicarOp st op)
      (fun o ho => hops o (List.mem_cons_of_mem op ho)) h1
    simpa [aplicarOps, List.foldl_cons] using h2

/-- C10 (counterexample): with product 1 (stock 5) in the catalog and a
logged-in session, the single operation agregarAlCarrito(1, 0) leaves a
cart entry whose quantity 0 is below 1: the stock guard only rejects
amounts above the stock, so a zero request slips through and violates the
stated invariant. -/
theorem carrito_cantidad_cero :
    (aplicarOps [OpCarrito.agregar 1 0]
        { usuario := true, token := true,
          productos := [{ id := 1, nombre := "Camiseta", precio := 15, stock := 5 }],
          carrito := [] }).carrito
      = [{ id := 1, nombre := "Camiseta", precio := 15, cantidad := 0, stock := 5 }]
      ∧ ¬ (1 ≤ (0 : Int)) :=
  ⟨rfl, by decide⟩

/-- C10 (amended): starting from the empty cart, after every sequence of
agregarAlCarrito, cambiarCantidad and quitarDelCarrito operations in which
each agregarAlCarrito requests a positive amount (the other operations
unrestricted), every item remaining in the cart has quantity at least 1
and at most the stock snapshot recorded for that product, and the cart
contains at most one entry per product identifier. -/
theorem carrito_invariante (ops : List OpCarrito) (st0 : EstadoFront)
    (h0 : st0.carrito = [])
    (hops : ∀ op ∈ ops, opValida op) :
    cantidadesValidas (aplicarOps ops st0)
      ∧ idsSinDuplicados (aplicarOps ops st0) := by
  have hinv0 : invCarrito st0 := by
    refine ⟨?_, ?_, ?_⟩ <;>
      simp [cantidadesValidas, idsSinDuplicados, snapshotCoherente, h0]
  have h := aplicarOps_inv ops st0 hops hinv0
  exact ⟨h.1, h.2.1⟩

/-- C10 (witness): a concrete add-change-remove session from the empty
cart satisfies the invariant. -/
theorem carrito_invariante_testigo :
    cantidadesValidas (aplicarOps
        [OpCarrito.agregar 1 2, OpCarrito.cambiar 1 5, OpCarrito.quitar 1]
        { usuario := true, token := true,
          productos := [{ id := 1, nombre := "Camiseta", precio := 15, stock := 5 }],
          carrito := [] })
      ∧ idsSinDuplicados (aplicarOps
        [OpCarrito.agregar 1 2, OpCarrito.cambiar 1 5, OpCarrito.quitar 1]
        { usuario := true, token := true,
          productos := [{ id := 1, nombre := "Camiseta", precio := 15, stock := 5 }],
          carrito := [] }) :=
  carrito_invariante _ _ rfl
    (by
      intro op hop
      fin_cases hop <;> simp [opValida])

end Tienda
